import Mathlib

deriving instance DecidableEq for Except

/-!
Shallow embedding of the intent-routing layer of the broadway_copilot
repository (routeIntent in the router source file) together with theorems
checking the claims of the specification about it.

Conventions of the embedding:
- JavaScript strings are Lean String; the JavaScript operations
  toLowerCase, trim and truthiness tests are modelled by executable
  functions over the underlying character lists so that every definition
  reduces in the kernel.
- Date values are modelled by their millisecond epoch value as Int
  (the code only ever calls getTime on them).
- The external structured-output classification call is modelled as a
  function parameter taking the two cooldown booleans that the code
  substitutes into the prompt and the text-only conversation history,
  returning either a typed decision (the zod schema guarantees the shape)
  or an error.
- Fallible code returns Except; the InternalServerError thrown by the
  router becomes an explicit error value.
-/

namespace Broadway

/-- JavaScript String.prototype.toLowerCase, modelled characterwise
(ASCII lowering, which covers every token the router compares). -/
def jsToLower (s : String) : String :=
  String.mk (s.data.map Char.toLower)

/-- JavaScript String.prototype.trim: drop whitespace from both ends. -/
def jsTrim (s : String) : String :=
  String.mk (((s.data.dropWhile Char.isWhitespace).reverse.dropWhile
    Char.isWhitespace).reverse)

/-- JavaScript truthiness of a nullable string: null/undefined and the
empty string are falsy. -/
def strTruthy : Option String → Bool
  | none => false
  | some s => !(s == "")

/-- Substring containment over character lists (structural recursion so
that it evaluates in the kernel). -/
def containsSub (hay needle : List Char) : Bool :=
  match hay with
  | [] => needle.isEmpty
  | c :: t => needle.isPrefixOf (c :: t) || containsSub t needle

/-- Case-insensitive check that a message mentions a token: the token
occurs as a substring of the lowercased message. -/
def mentionsCI (msg tok : String) : Bool :=
  containsSub (jsToLower msg).data tok.data

/-- Prisma PendingType enum: the pending-expectation values the router
reads and writes. -/
inductive PendingType where
  | TONALITY_SELECTION
  | VIBE_CHECK_IMAGE
  | COLOR_ANALYSIS_IMAGE
deriving DecidableEq

/-- User profile snapshot: the durable attributes the router reads.
Timestamps are millisecond epoch values (the getTime of the stored Date);
gender and age-group fields are nullable strings. -/
structure User where
  id : Nat
  lastVibeCheckAt : Option Int
  lastColorAnalysisAt : Option Int
  inferredGender : Option String
  confirmedGender : Option String
  inferredAgeGroup : Option String
  confirmedAgeGroup : Option String
deriving DecidableEq

/-- Turn input: free-text body and optional button/quick-reply payload,
with the field names the router reads. -/
structure TurnInput where
  ButtonPayload : Option String
  Body : Option String
deriving DecidableEq

/-- Modelled from the spec: one message of the conversation history, with
its text and the number of attached images (the message transport is out
of scope, only image presence matters to routing). -/
structure Message where
  text : String
  numImages : Nat
deriving DecidableEq

/-- Direct reply payload produced by the router (the invalid-tonality
corrective message). -/
structure Reply where
  reply_type : String
  reply_text : String
deriving DecidableEq

/-- Modelled from the spec: GraphState, the session state record flowing
through the agent graph (its defining module is outside the routing
source). It carries the user snapshot, the turn input, the conversation
histories, the pending expectation, and the routing-decision fields the
router sets: intent, selectedTonality, missingProfileField and
assistantReply. Intent is an optional string: it is unset before routing
and the code writes string literals (including a cast button token). -/
structure GraphState where
  user : User
  input : TurnInput
  conversationHistoryWithImages : List Message
  conversationHistoryTextOnly : List Message
  pending : Option PendingType
  intent : Option String
  selectedTonality : Option String
  missingProfileField : Option String
  assistantReply : List Reply
deriving DecidableEq

/-- Intent labels of the LLMOutputSchema zod enum. -/
inductive LLMIntent where
  | general
  | vibe_check
  | color_analysis
  | styling
deriving DecidableEq

/-- String rendering of a classifier intent label. -/
def LLMIntent.toLabel : LLMIntent → String
  | .general => "general"
  | .vibe_check => "vibe_check"
  | .color_analysis => "color_analysis"
  | .styling => "styling"

/-- Missing-profile-field values of the LLMOutputSchema zod enum. -/
inductive MissingField where
  | gender
  | age_group
deriving DecidableEq

/-- String rendering of a missing-profile-field value. -/
def MissingField.toLabel : MissingField → String
  | .gender => "gender"
  | .age_group => "age_group"

/-- Typed decision returned by the structured-output classification call
(shape guaranteed by the zod schema LLMOutputSchema). -/
structure LLMOutput where
  intent : LLMIntent
  missingProfileField : Option MissingField
deriving DecidableEq

/-- Error raised by the router: the InternalServerError thrown when the
classification call fails. -/
inductive RouteError where
  | internalServerError (message : String)
deriving DecidableEq

/-- Styling-family button tokens (stylingRelated in the source). -/
def stylingRelated : List String := ["styling", "occasion", "vacation", "pairing"]

/-- Other directly-valid button tokens (otherValid in the source). -/
def otherValid : List String := ["general", "vibe_check", "color_analysis", "suggest"]

/-- The three valid tonality tokens (validTonalities in the source). -/
def validTonalities : List String := ["friendly", "savage", "hype_bff"]

/-- The closed intent set of the LLMOutputSchema zod enum, which the spec
states as the closed set of selectable intents. -/
def intentEnum : List String := ["general", "vibe_check", "color_analysis", "styling"]

/-- Modelled from the spec: numImagesInMessage (utils/context, outside the
routing source) counts the images attached to the current turn message of
the conversation history. -/
def numImagesInMessage (history : List Message) : Nat :=
  match history.getLast? with
  | some m => m.numImages
  | none => 0

/-- Minutes elapsed since a nullable last-use timestamp, as the source
computes it: a falsy timestamp (null, or the number 0) gives the sentinel
-1, otherwise Math.floor of the millisecond delta divided by 60000. -/
def minutesAgo (now : Int) (last : Option Int) : Int :=
  match last with
  | some t => if t = 0 then -1 else Int.fdiv (now - t) 60000
  | none => -1

/-- Cooldown eligibility for vibe-check: sentinel -1 (never used) or at
least 30 minutes elapsed. -/
def canDoVibeCheck (now : Int) (lastVibeCheckAt : Option Int) : Bool :=
  (minutesAgo now lastVibeCheckAt == -1) ||
    decide ((30 : Int) ≤ minutesAgo now lastVibeCheckAt)

/-- Cooldown eligibility for color-analysis: same formula as vibe-check. -/
def canDoColorAnalysis (now : Int) (lastColorAnalysisAt : Option Int) : Bool :=
  (minutesAgo now lastColorAnalysisAt == -1) ||
    decide ((30 : Int) ≤ minutesAgo now lastColorAnalysisAt)

/-- The fixed corrective reply text of the invalid-tonality branch. -/
def invalidTonalityText : String :=
  "Invalid tonality selection. Please choose one of: Friendly, Savage, Hype BFF"

/-- The lowercased and trimmed message body the tonality branch compares,
empty when the body is absent. -/
def normalizedBody (input : TurnInput) : String :=
  match input.Body with
  | some b => jsTrim (jsToLower b)
  | none => ""

/-- Fallback classification branch of routeIntent: invoke the classifier
with the two cooldown booleans and the text-only history; on failure wrap
into the generic internal error; on success post-process the
missing-profile-field against the profile snapshot. -/
def classifyFallback (now : Int)
    (classify : Bool → Bool → List Message → Except Unit LLMOutput)
    (state : GraphState) : Except RouteError GraphState :=
  match classify (canDoVibeCheck now state.user.lastVibeCheckAt)
      (canDoColorAnalysis now state.user.lastColorAnalysisAt)
      state.conversationHistoryTextOnly with
  | Except.error _ =>
      Except.error (RouteError.internalServerError "Failed to route intent")
  | Except.ok response =>
      let mpf : Option MissingField :=
        match response.missingProfileField with
        | some MissingField.gender =>
            if strTruthy state.user.inferredGender ||
                strTruthy state.user.confirmedGender then none
            else some MissingField.gender
        | some MissingField.age_group =>
            if strTruthy state.user.inferredAgeGroup ||
                strTruthy state.user.confirmedAgeGroup then none
            else some MissingField.age_group
        | none => none
      Except.ok { state with
        intent := some response.intent.toLabel,
        missingProfileField := mpf.map MissingField.toLabel }

/-- routeIntent, the hierarchical priority cascade of the source: button
payload, then pending tonality selection, then pending image-based
intents, then the classifier fallback. Membership tests mirror the
Array.includes calls of the source; the first guard mirrors the JS
truthiness test on the payload. -/
def routeIntent (now : Int)
    (classify : Bool → Bool → List Message → Except Unit LLMOutput)
    (state : GraphState) : Except RouteError GraphState :=
  let bp := state.input.ButtonPayload.getD ""
  if bp ≠ "" then
    if bp ∈ stylingRelated then
      Except.ok { state with intent := some "styling", missingProfileField := none }
    else if bp ∈ otherValid then
      Except.ok { state with intent := some bp, missingProfileField := none }
    else if bp ∈ validTonalities then
      Except.ok { state with
        intent := some "vibe_check",
        selectedTonality := some bp,
        pending := none, missingProfileField := none }
    else
      Except.ok { state with intent := some "general", missingProfileField := none }
  else if state.pending = some PendingType.TONALITY_SELECTION then
    if normalizedBody state.input ∈ validTonalities then
      Except.ok { state with
        selectedTonality := some (normalizedBody state.input),
        pending := some PendingType.VIBE_CHECK_IMAGE,
        intent := some "vibe_check", missingProfileField := none }
    else
      Except.ok { state with
        assistantReply := [{ reply_type := "text", reply_text := invalidTonalityText }],
        pending := some PendingType.TONALITY_SELECTION }
  else if 0 < numImagesInMessage state.conversationHistoryWithImages ∧
      state.pending = some PendingType.VIBE_CHECK_IMAGE then
    Except.ok { state with intent := some "vibe_check", missingProfileField := none }
  else if 0 < numImagesInMessage state.conversationHistoryWithImages ∧
      state.pending = some PendingType.COLOR_ANALYSIS_IMAGE then
    Except.ok { state with intent := some "color_analysis", missingProfileField := none }
  else
    classifyFallback now classify state

/-- Classifier stub that always fails, for concrete evaluations. -/
def failClassify : Bool → Bool → List Message → Except Unit LLMOutput :=
  fun _ _ _ => Except.error ()

/-- Classifier stub returning a fixed decision, for concrete evaluations. -/
def okClassify (r : LLMOutput) : Bool → Bool → List Message → Except Unit LLMOutput :=
  fun _ _ _ => Except.ok r

/-- Profile snapshot with every nullable attribute absent. -/
def emptyUser : User :=
  { id := 1, lastVibeCheckAt := none, lastColorAnalysisAt := none,
    inferredGender := none, confirmedGender := none,
    inferredAgeGroup := none, confirmedAgeGroup := none }

/-- Base session state used to build concrete evaluation inputs. -/
def baseState : GraphState :=
  { user := emptyUser,
    input := { ButtonPayload := none, Body := none },
    conversationHistoryWithImages := [],
    conversationHistoryTextOnly := [],
    pending := none, intent := none, selectedTonality := none,
    missingProfileField := none, assistantReply := [] }

/-- Concrete input for the C4 runs: pending TONALITY_SELECTION with the
body text maybe, which is not a tonality token. -/
def c4In : GraphState :=
  { baseState with
    input := { ButtonPayload := none, Body := some "maybe" },
    pending := some PendingType.TONALITY_SELECTION,
    intent := some "general" }

/-- Concrete input state for the C9 frame-condition witness: pending
COLOR_ANALYSIS_IMAGE with one image on the turn. -/
def c9In : GraphState :=
  { baseState with
    pending := some PendingType.COLOR_ANALYSIS_IMAGE,
    conversationHistoryWithImages := [{ text := "pic", numImages := 1 }] }

/-- Concrete output state routeIntent produces on c9In. -/
def c9Out : GraphState :=
  { c9In with intent := some "color_analysis", missingProfileField := none }

/-- Concrete input for the C1 counterexample: the button payload suggest
with the session intent previously general. -/
def c1In : GraphState :=
  { baseState with
    input := { ButtonPayload := some "suggest", Body := none },
    intent := some "general" }

/-- Concrete output of the C1 witness run: a fallthrough classification
that selects general. -/
def c1Out : GraphState :=
  { { baseState with intent := some "general" } with
    intent := some "general", missingProfileField := none }

end Broadway

namespace Broadway

/-- C2: whenever the button payload of the turn is one of the three tonality
tokens, routeIntent returns immediately (for every pending expectation and
profile) with intent vibe_check, the payload recorded as the selected
tonality, pending cleared and missingProfileField cleared. -/
theorem c2_tonality_payload_short_circuit (now : Int)
    (classify : Bool → Bool → List Message → Except Unit LLMOutput)
    (state : GraphState) (p : String)
    (hbp : state.input.ButtonPayload = some p)
    (hp : p ∈ validTonalities) :
    routeIntent now classify state =
      Except.ok { state with
        intent := some "vibe_check",
        selectedTonality := some p,
        pending := none, missingProfileField := none } := by
  simp only [validTonalities, List.mem_cons, List.mem_singleton,
    List.not_mem_nil, or_false] at hp
  rcases hp with rfl | rfl | rfl <;>
    simp [routeIntent, hbp, stylingRelated, otherValid, validTonalities]

/-- C2 witness: a concrete run with payload friendly and pending
COLOR_ANALYSIS_IMAGE short-circuits to the tonality result. -/
theorem c2_witness :
    routeIntent 0 failClassify
      { baseState with
        input := { ButtonPayload := some "friendly", Body := none },
        pending := some PendingType.COLOR_ANALYSIS_IMAGE } =
      Except.ok { { baseState with
          input := { ButtonPayload := some "friendly", Body := none },
          pending := some PendingType.COLOR_ANALYSIS_IMAGE } with
        intent := some "vibe_check",
        selectedTonality := some "friendly",
        pending := none, missingProfileField := none } :=
  c2_tonality_payload_short_circuit 0 failClassify
    { baseState with
      input := { ButtonPayload := some "friendly", Body := none },
      pending := some PendingType.COLOR_ANALYSIS_IMAGE }
    "friendly" rfl (by decide)

/-- C3: with no button payload, pending TONALITY_SELECTION, and the
lowercased trimmed body a valid tonality token, routeIntent records that
tonality, advances pending to VIBE_CHECK_IMAGE, selects vibe_check and
clears missingProfileField. -/
theorem c3_pending_tonality_valid_text (now : Int)
    (classify : Bool → Bool → List Message → Except Unit LLMOutput)
    (state : GraphState)
    (hbp : state.input.ButtonPayload = none)
    (hpend : state.pending = some PendingType.TONALITY_SELECTION)
    (hmem : normalizedBody state.input ∈ validTonalities) :
    routeIntent now classify state =
      Except.ok { state with
        selectedTonality := some (normalizedBody state.input),
        pending := some PendingType.VIBE_CHECK_IMAGE,
        intent := some "vibe_check", missingProfileField := none } := by
  simp [routeIntent, hbp, hpend, hmem]

/-- C3 witness: body text Savage with mixed case and surrounding spaces
records tonality savage and advances pending to VIBE_CHECK_IMAGE. -/
theorem c3_witness :
    routeIntent 0 failClassify
      { baseState with
        input := { ButtonPayload := none, Body := some " Savage " },
        pending := some PendingType.TONALITY_SELECTION } =
      Except.ok { { baseState with
          input := { ButtonPayload := none, Body := some " Savage " },
          pending := some PendingType.TONALITY_SELECTION } with
        selectedTonality := some "savage",
        pending := some PendingType.VIBE_CHECK_IMAGE,
        intent := some "vibe_check", missingProfileField := none } :=
  c3_pending_tonality_valid_text 0 failClassify
    { baseState with
      input := { ButtonPayload := none, Body := some " Savage " },
      pending := some PendingType.TONALITY_SELECTION }
    rfl rfl (by decide)

/-- C10: a truthy button payload matching none of the three token lists
routes to intent general with missingProfileField cleared, for every
pending expectation, conversation history, clock value and classifier. -/
theorem c10_unknown_payload_routes_general (now : Int)
    (classify : Bool → Bool → List Message → Except Unit LLMOutput)
    (state : GraphState) (p : String)
    (hbp : state.input.ButtonPayload = some p)
    (hne : p ≠ "")
    (h1 : p ∉ stylingRelated)
    (h2 : p ∉ otherValid)
    (h3 : p ∉ validTonalities) :
    routeIntent now classify state =
      Except.ok { state with
        intent := some "general", missingProfileField := none } := by
  simp [routeIntent, hbp, hne, h1, h2, h3]

/-- C10 witness: the payload Savage (capitalised, hence matching no token
case-sensitively) yields intent general even with a pending expectation
and an image present. -/
theorem c10_witness :
    routeIntent 0 failClassify
      { baseState with
        input := { ButtonPayload := some "Savage", Body := none },
        pending := some PendingType.VIBE_CHECK_IMAGE,
        conversationHistoryWithImages := [{ text := "hi", numImages := 2 }] } =
      Except.ok { { baseState with
          input := { ButtonPayload := some "Savage", Body := none },
          pending := some PendingType.VIBE_CHECK_IMAGE,
          conversationHistoryWithImages := [{ text := "hi", numImages := 2 }] } with
        intent := some "general", missingProfileField := none } :=
  c10_unknown_payload_routes_general 0 failClassify
    { baseState with
      input := { ButtonPayload := some "Savage", Body := none },
      pending := some PendingType.VIBE_CHECK_IMAGE,
      conversationHistoryWithImages := [{ text := "hi", numImages := 2 }] }
    "Savage" rfl (by decide) (by decide) (by decide) (by decide)

/-- C8: when the turn reaches the fallback branch and the classification
call fails, routeIntent returns exactly the generic internal error and no
session state. -/
theorem c8_classifier_failure_internal_error (now : Int)
    (classify : Bool → Bool → List Message → Except Unit LLMOutput)
    (state : GraphState)
    (hbp : state.input.ButtonPayload = none)
    (hpend : state.pending ≠ some PendingType.TONALITY_SELECTION)
    (hv : ¬(0 < numImagesInMessage state.conversationHistoryWithImages ∧
        state.pending = some PendingType.VIBE_CHECK_IMAGE))
    (hc : ¬(0 < numImagesInMessage state.conversationHistoryWithImages ∧
        state.pending = some PendingType.COLOR_ANALYSIS_IMAGE))
    (hfail : classify (canDoVibeCheck now state.user.lastVibeCheckAt)
        (canDoColorAnalysis now state.user.lastColorAnalysisAt)
        state.conversationHistoryTextOnly = Except.error ()) :
    routeIntent now classify state =
      Except.error (RouteError.internalServerError "Failed to route intent") := by
  simp [routeIntent, classifyFallback, hbp, hpend, hv, hc, hfail]

/-- C8 witness: a concrete fallthrough state with an always-failing
classifier yields the internal error. -/
theorem c8_witness :
    routeIntent 0 failClassify baseState =
      Except.error (RouteError.internalServerError "Failed to route intent") :=
  c8_classifier_failure_internal_error 0 failClassify baseState
    rfl (by decide) (by decide) (by decide) rfl

/-- C5: with no button payload, pending not TONALITY_SELECTION, and at
least one image on the turn: pending VIBE_CHECK_IMAGE routes to
vibe_check with missingProfileField cleared, pending COLOR_ANALYSIS_IMAGE
routes to color_analysis with missingProfileField cleared, and pending
none skips the image branch and falls through to the
cooldown/classification step. -/
theorem c5_pending_image_routing (now : Int)
    (classify : Bool → Bool → List Message → Except Unit LLMOutput)
    (state : GraphState)
    (hbp : state.input.ButtonPayload = none)
    (himg : 0 < numImagesInMessage state.conversationHistoryWithImages) :
    (state.pending = some PendingType.VIBE_CHECK_IMAGE →
      routeIntent now classify state =
        Except.ok { state with
          intent := some "vibe_check", missingProfileField := none }) ∧
    (state.pending = some PendingType.COLOR_ANALYSIS_IMAGE →
      routeIntent now classify state =
        Except.ok { state with
          intent := some "color_analysis", missingProfileField := none }) ∧
    (state.pending = none →
      routeIntent now classify state = classifyFallback now classify state) := by
  refine ⟨fun h => ?_, fun h => ?_, fun h => ?_⟩ <;>
    simp [routeIntent, hbp, h, himg]

/-- C5 witness: a concrete state with pending VIBE_CHECK_IMAGE and one
image routes to vibe_check. -/
theorem c5_witness :
    routeIntent 0 failClassify
      { baseState with
        pending := some PendingType.VIBE_CHECK_IMAGE,
        conversationHistoryWithImages := [{ text := "pic", numImages := 1 }] } =
      Except.ok { { baseState with
          pending := some PendingType.VIBE_CHECK_IMAGE,
          conversationHistoryWithImages := [{ text := "pic", numImages := 1 }] } with
        intent := some "vibe_check", missingProfileField := none } :=
  (c5_pending_image_routing 0 failClassify
    { baseState with
      pending := some PendingType.VIBE_CHECK_IMAGE,
      conversationHistoryWithImages := [{ text := "pic", numImages := 1 }] }
    rfl (by decide)).1 rfl

/-- C9: in the pending-image branch (no payload, pending an image
expectation, at least one image) the returned state keeps the input
pending value and every session field other than intent and
missingProfileField unchanged. -/
theorem c9_pending_image_frame (now : Int)
    (classify : Bool → Bool → List Message → Except Unit LLMOutput)
    (state s2 : GraphState)
    (hbp : state.input.ButtonPayload = none)
    (hpend : state.pending = some PendingType.VIBE_CHECK_IMAGE ∨
      state.pending = some PendingType.COLOR_ANALYSIS_IMAGE)
    (himg : 0 < numImagesInMessage state.conversationHistoryWithImages)
    (hrun : routeIntent now classify state = Except.ok s2) :
    s2.pending = state.pending ∧ s2.user = state.user ∧
    s2.input = state.input ∧
    s2.conversationHistoryWithImages = state.conversationHistoryWithImages ∧
    s2.conversationHistoryTextOnly = state.conversationHistoryTextOnly ∧
    s2.selectedTonality = state.selectedTonality ∧
    s2.assistantReply = state.assistantReply := by
  rcases hpend with h | h <;>
    · simp [routeIntent, hbp, h, himg] at hrun
      subst hrun
      simp [h]

/-- C9 witness: the frame condition holds at the concrete
COLOR_ANALYSIS_IMAGE run. -/
theorem c9_witness :
    c9Out.pending = c9In.pending ∧ c9Out.user = c9In.user ∧
    c9Out.input = c9In.input ∧
    c9Out.conversationHistoryWithImages = c9In.conversationHistoryWithImages ∧
    c9Out.conversationHistoryTextOnly = c9In.conversationHistoryTextOnly ∧
    c9Out.selectedTonality = c9In.selectedTonality ∧
    c9Out.assistantReply = c9In.assistantReply :=
  c9_pending_image_frame 0 failClassify c9In c9Out
    rfl (Or.inr rfl) (by decide) rfl

/-- C7: in the fallback branch, a classifier-reported missing gender is
suppressed when the profile has an inferred or confirmed gender, and a
missing age_group is suppressed when the profile has an inferred or
confirmed age group. -/
theorem c7_missing_field_suppression (now : Int)
    (classify : Bool → Bool → List Message → Except Unit LLMOutput)
    (state : GraphState) (r : LLMOutput)
    (hbp : state.input.ButtonPayload = none)
    (hpend : state.pending ≠ some PendingType.TONALITY_SELECTION)
    (hv : ¬(0 < numImagesInMessage state.conversationHistoryWithImages ∧
        state.pending = some PendingType.VIBE_CHECK_IMAGE))
    (hc : ¬(0 < numImagesInMessage state.conversationHistoryWithImages ∧
        state.pending = some PendingType.COLOR_ANALYSIS_IMAGE))
    (hcl : classify (canDoVibeCheck now state.user.lastVibeCheckAt)
        (canDoColorAnalysis now state.user.lastColorAnalysisAt)
        state.conversationHistoryTextOnly = Except.ok r) :
    (r.missingProfileField = some MissingField.gender →
      (strTruthy state.user.inferredGender ||
        strTruthy state.user.confirmedGender) = true →
      routeIntent now classify state =
        Except.ok { state with
          intent := some r.intent.toLabel, missingProfileField := none }) ∧
    (r.missingProfileField = some MissingField.age_group →
      (strTruthy state.user.inferredAgeGroup ||
        strTruthy state.user.confirmedAgeGroup) = true →
      routeIntent now classify state =
        Except.ok { state with
          intent := some r.intent.toLabel, missingProfileField := none }) := by
  refine ⟨fun hm hg => ?_, fun hm hg => ?_⟩ <;>
    simp [routeIntent, classifyFallback, hbp, hpend, hv, hc, hcl, hm, hg]

/-- Helper for the closed-intent-set analysis: a successful fallback
classification always stores one of the four zod enum intents. -/
theorem classifyFallback_intent_mem (now : Int)
    (classify : Bool → Bool → List Message → Except Unit LLMOutput)
    (state s2 : GraphState)
    (hrun : classifyFallback now classify state = Except.ok s2) :
    ∃ i, s2.intent = some i ∧ i ∈ intentEnum := by
  unfold classifyFallback at hrun
  split at hrun
  case h_1 => exact absurd hrun (by simp)
  case h_2 r heq =>
    simp only [Except.ok.injEq] at hrun
    subst hrun
    refine ⟨r.intent.toLabel, rfl, ?_⟩
    rcases r with ⟨ri, rmp⟩
    cases ri <;> simp [LLMIntent.toLabel, intentEnum]

/-- C1 counterexample: the payload suggest is cast into the intent field
verbatim, so the returned intent is the string suggest, which is not a
member of the closed set of the zod intent enum. -/
theorem c1_counterexample :
    routeIntent 0 failClassify c1In =
      Except.ok { c1In with
        intent := some "suggest", missingProfileField := none } ∧
    "suggest" ∉ intentEnum := ⟨rfl, by decide⟩

/-- C1 amended: if the intent of the input session is already a member of the
closed set and the button payload is not the token suggest, the routed
intent of the routed session is exactly one member of the closed set
(general, vibe_check, color_analysis, styling); the invalid-tonality
branch preserves the input intent and the suggest payload escapes the
set, which is why both hypotheses are needed. -/
theorem c1_intent_closed_set (now : Int)
    (classify : Bool → Bool → List Message → Except Unit LLMOutput)
    (state s2 : GraphState) (i0 : String)
    (hIn : state.intent = some i0) (hIn2 : i0 ∈ intentEnum)
    (hNs : state.input.ButtonPayload ≠ some "suggest")
    (hrun : routeIntent now classify state = Except.ok s2) :
    ∃ i, s2.intent = some i ∧ i ∈ intentEnum := by
  rcases hbpc : state.input.ButtonPayload with _ | s <;>
    rw [hbpc] at hNs <;>
    simp [routeIntent, hbpc] at hrun <;>
    split_ifs at hrun <;>
    first
    | exact classifyFallback_intent_mem now classify state s2 hrun
    | (simp only [Except.ok.injEq] at hrun
       subst hrun
       first
       | exact ⟨i0, hIn, hIn2⟩
       | exact ⟨"styling", rfl, by decide⟩
       | exact ⟨"vibe_check", rfl, by decide⟩
       | exact ⟨"color_analysis", rfl, by decide⟩
       | exact ⟨"general", rfl, by decide⟩
       | (rename_i hmem
          refine ⟨s, rfl, ?_⟩
          simp only [otherValid, List.mem_cons, List.mem_singleton,
            List.not_mem_nil, or_false] at hmem
          rcases hmem with rfl | rfl | rfl | rfl <;>
            first
            | decide
            | exact absurd rfl hNs))

/-- C1 witness for the amended theorem: a concrete fallthrough run keeps
the intent inside the closed set. -/
theorem c1_witness :
    ∃ i, c1Out.intent = some i ∧ i ∈ intentEnum :=
  c1_intent_closed_set 0
    (okClassify { intent := LLMIntent.general, missingProfileField := none })
    { baseState with intent := some "general" } c1Out
    "general" rfl (by decide) (by decide) rfl

/-- C7 witness: a profile with confirmed gender suppresses a
classifier-reported missing gender at a concrete run. -/
theorem c7_witness :
    routeIntent 0
      (okClassify { intent := LLMIntent.styling,
                    missingProfileField := some MissingField.gender })
      { baseState with user := { emptyUser with confirmedGender := some "male" } } =
      Except.ok { { baseState with
          user := { emptyUser with confirmedGender := some "male" } } with
        intent := some "styling", missingProfileField := none } :=
  (c7_missing_field_suppression 0
    (okClassify { intent := LLMIntent.styling,
                  missingProfileField := some MissingField.gender })
    { baseState with user := { emptyUser with confirmedGender := some "male" } }
    { intent := LLMIntent.styling, missingProfileField := some MissingField.gender }
    rfl (by decide) (by decide) (by decide) rfl).1 rfl rfl

/-- C4 counterexample: on invalid tonality text the router emits exactly
one reply, but its fixed text renders the third option as Hype BFF, so
the token hype_bff does not occur in it even case-insensitively; the
reply does not list all three valid tonality tokens. -/
theorem c4_counterexample :
    routeIntent 0 failClassify c4In =
      Except.ok { c4In with
        assistantReply := [{ reply_type := "text", reply_text := invalidTonalityText }],
        pending := some PendingType.TONALITY_SELECTION } ∧
    mentionsCI invalidTonalityText "hype_bff" = false := ⟨rfl, by decide⟩

/-- C4 amended: with no button payload, pending TONALITY_SELECTION and a
normalized body that is not a tonality token, the router keeps pending,
leaves the intent untouched, and emits exactly one fixed text reply that
mentions friendly and savage case-insensitively and renders the third
option as hype bff with a space instead of the underscore of the token. -/
theorem c4_invalid_tonality_reply (now : Int)
    (classify : Bool → Bool → List Message → Except Unit LLMOutput)
    (state : GraphState)
    (hbp : state.input.ButtonPayload = none)
    (hpend : state.pending = some PendingType.TONALITY_SELECTION)
    (hmem : normalizedBody state.input ∉ validTonalities) :
    routeIntent now classify state =
      Except.ok { state with
        assistantReply := [{ reply_type := "text", reply_text := invalidTonalityText }],
        pending := some PendingType.TONALITY_SELECTION } ∧
    mentionsCI invalidTonalityText "friendly" = true ∧
    mentionsCI invalidTonalityText "savage" = true ∧
    mentionsCI invalidTonalityText "hype bff" = true := by
  refine ⟨?_, by decide, by decide, by decide⟩
  simp [routeIntent, hbp, hpend, hmem]

/-- C4 witness: the concrete invalid-tonality run with body maybe. -/
theorem c4_witness :
    routeIntent 0 failClassify c4In =
      Except.ok { c4In with
        assistantReply := [{ reply_type := "text", reply_text := invalidTonalityText }],
        pending := some PendingType.TONALITY_SELECTION } ∧
    mentionsCI invalidTonalityText "friendly" = true ∧
    mentionsCI invalidTonalityText "savage" = true ∧
    mentionsCI invalidTonalityText "hype bff" = true :=
  c4_invalid_tonality_reply 0 failClassify c4In rfl rfl (by decide)

/-- C6 counterexample: a last-use timestamp one millisecond in the future
is recorded and its floored minute delta is -1, not at least 30, yet the
code reports the feature eligible, because -1 collides with the sentinel
for no recorded use. -/
theorem c6_counterexample :
    canDoVibeCheck 0 (some 1) = true ∧
    ¬((30 : Int) ≤ Int.fdiv (0 - 1) 60000) := by decide

/-- C6 amended: for a recorded positive last-use timestamp not in the
future, eligibility holds exactly when the floored minute delta is at
least 30; in particular 29 minutes ago is ineligible, exactly 30 minutes
ago is eligible, and an absent timestamp is eligible. -/
theorem c6_cooldown_threshold (now t : Int) (ht0 : 0 < t) (hle : t ≤ now)
    (hnow : 1800000 < now) :
    (canDoVibeCheck now (some t) = true ↔
      (30 : Int) ≤ Int.fdiv (now - t) 60000) ∧
    canDoVibeCheck now (some (now - 29 * 60000)) = false ∧
    canDoVibeCheck now (some (now - 30 * 60000)) = true ∧
    canDoVibeCheck now none = true := by
  refine ⟨?_, ?_, ?_, by simp [canDoVibeCheck, minutesAgo]⟩
  · have hm : (0 : Int) ≤ Int.fdiv (now - t) 60000 :=
      Int.fdiv_nonneg (by omega) (by omega)
    simp only [canDoVibeCheck, minutesAgo, if_neg (show ¬t = 0 by omega),
      Bool.or_eq_true, beq_iff_eq, decide_eq_true_eq]
    omega
  · have hne : ¬(now - 29 * 60000 = 0) := by omega
    simp only [canDoVibeCheck, minutesAgo, if_neg hne,
      show now - (now - 29 * 60000) = 1740000 by ring]
    decide
  · have hne : ¬(now - 30 * 60000 = 0) := by omega
    simp only [canDoVibeCheck, minutesAgo, if_neg hne,
      show now - (now - 30 * 60000) = 1800000 by ring]
    decide

/-- C6 witness: the cooldown characterization at a concrete clock. -/
theorem c6_witness :
    (canDoVibeCheck 1800001 (some 1) = true ↔
      (30 : Int) ≤ Int.fdiv (1800001 - 1) 60000) ∧
    canDoVibeCheck 1800001 (some (1800001 - 29 * 60000)) = false ∧
    canDoVibeCheck 1800001 (some (1800001 - 30 * 60000)) = true ∧
    canDoVibeCheck 1800001 none = true :=
  c6_cooldown_threshold 1800001 1 (by decide) (by decide) (by decide)

end Broadway
